import Mathlib

/-!
Shallow embedding of `embedded_postgres.go` (package `embeddedpostgres`):
an embedded PostgreSQL lifecycle coordinator.  Pure Go code (the `Config`
builders, the cache-path computation, the zip-entry filtering of the remote
fetch) is translated to Lean functions directly.  Effectful code is modelled
by explicit state passing: the two capacity-1 signalling channels
(`startupHook`, `shutdownHook`) become an explicit `ChanState`, the child
process becomes a `ChildState`, and the outcomes of external collaborators
(port probe, filesystem, subprocesses, readiness polling) are supplied as
boolean oracles in an environment record.  `Start`, `startPostgres` and
`Stop` then become deterministic functions from environment and state to an
outcome (return value, hang, or crash by unrecovered panic), an event trace,
and a post-state.
-/

namespace EmbeddedPg

/-! ## Config and its builder methods (embedded_postgres.go lines 26-87) -/

/-- Go `time.Duration` is an integer count of nanoseconds; modelled as `Nat`
(all durations in the source are nonnegative literals). -/
def nanosecond : Nat := 1

def second : Nat := 1000000000

/-- The `Config` struct (lines 26-35).  `PostgresVersion` is a string type
alias in the source, modelled as `String`; `port` is `uint32`, modelled as
`Nat` (no arithmetic is performed on it). -/
structure Config where
  version : String
  port : Nat
  database : String
  username : String
  password : String
  runtimePath : String
  startTimeout : Nat
  stopTimeout : Nat
  deriving Repr, DecidableEq

/-- `DefaultConfig` (lines 37-47); `runtimePath` is the zero value `""`. -/
def DefaultConfig : Config :=
  { version := "12.1.0"
    port := 5432
    database := "postgres"
    username := "postgres"
    password := "postgres"
    runtimePath := ""
    startTimeout := 15 * second
    stopTimeout := 5 * second }

/-- `func (c Config) Version(version PostgresVersion) Config` (lines 49-52).
Go value receivers copy the receiver, so the original is never mutated;
purity of the Lean function models that. -/
def Config.Version (c : Config) (version : String) : Config :=
  { c with version := version }

/-- `func (c Config) Port(port uint32) Config` (lines 54-57). -/
def Config.Port (c : Config) (port : Nat) : Config :=
  { c with port := port }

/-- `func (c Config) Database(database string) Config` (lines 59-62). -/
def Config.Database (c : Config) (database : String) : Config :=
  { c with database := database }

/-- `func (c Config) Username(username string) Config` (lines 64-67). -/
def Config.Username (c : Config) (username : String) : Config :=
  { c with username := username }

/-- `func (c Config) Password(password string) Config` (lines 69-72). -/
def Config.Password (c : Config) (password : String) : Config :=
  { c with password := password }

/-- `func (c Config) RuntimePath(path string) Config` (lines 74-77). -/
def Config.RuntimePath (c : Config) (path : String) : Config :=
  { c with runtimePath := path }

/-- `func (c Config) StartTimeout(timeout time.Duration) Config` (lines 79-82). -/
def Config.StartTimeout (c : Config) (timeout : Nat) : Config :=
  { c with startTimeout := timeout }

/-- `func (c Config) StopTimeout(timeout time.Duration) Config` (lines 84-87). -/
def Config.StopTimeout (c : Config) (timeout : Nat) : Config :=
  { c with stopTimeout := timeout }

/-! ## Cache locator (embedded_postgres.go lines 138-160) -/

/-- `filepath.Join` restricted to how the source uses it: both components
nonempty, already clean, and free of trailing separators, where it is plain
concatenation with the separator. -/
def filepathJoin (a b : String) : String := a ++ "/" ++ b

/-- The cache directory computed in lines 142-147: `~/.embedded-postgres-go`
when `os.UserHomeDir()` succeeds (`some home`), the relative
`.embedded-postgres-go` when it fails (`none`). -/
def cacheDirectory (userHome : Option String) : String :=
  match userHome with
  | none => ".embedded-postgres-go"
  | some home => filepathJoin home ".embedded-postgres-go"

/-- The `cacheLocation` computed in lines 149-153:
`filepath.Join(cacheDirectory, fmt.Sprintf("embedded-postgres-binaries-%s-%s-%s.txz", os, arch, version))`. -/
def cacheLocation (userHome : Option String) (os arch version : String) : String :=
  filepathJoin (cacheDirectory userHome)
    ("embedded-postgres-binaries-" ++ os ++ "-" ++ arch ++ "-" ++ version ++ ".txz")

/-- Errno values relevant to `os.Stat` failures and to `os.IsExist`.
`statFailure` stands for every error `stat(2)` can actually produce
(ENOENT, EACCES, ENOTDIR, ELOOP, ENAMETOOLONG, EIO, EOVERFLOW, ...);
`eexist` and `enotempty` are the two errnos Go maps to `os.ErrExist`.
They are listed separately because `stat(2)` never fails with either. -/
inductive Errno
  | enoent
  | eacces
  | enotdir
  | eloop
  | enametoolong
  | eio
  | eoverflow
  | eexist
  | enotempty
  deriving Repr, DecidableEq

/-- The errors `os.Stat` can return, per the POSIX `stat(2)` failure modes:
the "file already exists" errnos `EEXIST`/`ENOTEMPTY` are not among them. -/
def statFailureErrnos : List Errno :=
  [.enoent, .eacces, .enotdir, .eloop, .enametoolong, .eio, .eoverflow]

/-- `os.IsExist` from the Go standard library: true exactly when the error
reports that a file or directory already exists, i.e. wraps `EEXIST` or
`ENOTEMPTY`. -/
def osIsExist (e : Errno) : Bool :=
  match e with
  | .eexist => true
  | .enotempty => true
  | _ => false

/-- Unrecovered Go runtime panics that the modelled code can raise. -/
inductive GoPanic
  | nilPointerDereference
  | sendOnClosedChannel
  deriving Repr, DecidableEq

/-- Outcome of the `os.Stat(cacheLocation)` call at line 154: success with
the `IsDir` bit of the returned `FileInfo`, or failure with an errno (in
which case the returned `FileInfo` pointer is nil). -/
inductive StatResult
  | ok (isDir : Bool)
  | err (e : Errno)
  deriving Repr, DecidableEq

/-- The closure returned by `defaultCacheLocator` (lines 140-160), with the
ambient environment (home directory lookup, version strategy triple, stat
outcome) passed explicitly.  In the error branch (line 156) the source
evaluates `os.IsExist(err) && !info.IsDir()` where `info` is nil: Go `&&`
short-circuits, so `info.IsDir()` — a nil-pointer dereference, modelled as a
panic — is reached only when `os.IsExist(err)` is true. -/
def defaultCacheLocator (userHome : Option String) (os arch version : String)
    (st : StatResult) : Except GoPanic (String × Bool) :=
  let loc := cacheLocation userHome os arch version
  match st with
  | .ok isDir => .ok (loc, !isDir)
  | .err e =>
      if osIsExist e then .error .nilPointerDereference
      else .ok (loc, false)

/-- The path shape stated by the spec: cache-root, separator, then
`embedded-postgres-binaries-os-arch-version.txz`, where the cache root is a
fixed dot-directory under the home directory, falling back to a relative
dot-directory when the home directory cannot be resolved.  Written from the
spec wording, to be compared with `cacheLocation` from the source. -/
def cacheLocationSpecShape (userHome : Option String) (os arch version : String) : String :=
  let cacheRoot :=
    match userHome with
    | some home => home ++ "/" ++ ".embedded-postgres-go"
    | none => ".embedded-postgres-go"
  cacheRoot ++ "/" ++ ("embedded-postgres-binaries-" ++ os ++ "-" ++ arch ++ "-" ++ version ++ ".txz")

theorem cacheLocation_eq_specShape (userHome : Option String) (os arch version : String) :
    cacheLocation userHome os arch version = cacheLocationSpecShape userHome os arch version := by
  cases userHome <;> rfl

/-- C9: Every Config builder method returns a new Config in which only the
named field is changed and all other fields equal those of the receiver (the
receiver itself, copied by Go value-receiver semantics, is unchanged). -/
theorem config_builders_frame (c : Config) (ver : String) (p : Nat)
    (db user pw path : String) (st sp : Nat) :
    ((c.Version ver).version = ver ∧ (c.Version ver).port = c.port ∧
      (c.Version ver).database = c.database ∧ (c.Version ver).username = c.username ∧
      (c.Version ver).password = c.password ∧ (c.Version ver).runtimePath = c.runtimePath ∧
      (c.Version ver).startTimeout = c.startTimeout ∧ (c.Version ver).stopTimeout = c.stopTimeout) ∧
    ((c.Port p).port = p ∧ (c.Port p).version = c.version ∧
      (c.Port p).database = c.database ∧ (c.Port p).username = c.username ∧
      (c.Port p).password = c.password ∧ (c.Port p).runtimePath = c.runtimePath ∧
      (c.Port p).startTimeout = c.startTimeout ∧ (c.Port p).stopTimeout = c.stopTimeout) ∧
    ((c.Database db).database = db ∧ (c.Database db).version = c.version ∧
      (c.Database db).port = c.port ∧ (c.Database db).username = c.username ∧
      (c.Database db).password = c.password ∧ (c.Database db).runtimePath = c.runtimePath ∧
      (c.Database db).startTimeout = c.startTimeout ∧ (c.Database db).stopTimeout = c.stopTimeout) ∧
    ((c.Username user).username = user ∧ (c.Username user).version = c.version ∧
      (c.Username user).port = c.port ∧ (c.Username user).database = c.database ∧
      (c.Username user).password = c.password ∧ (c.Username user).runtimePath = c.runtimePath ∧
      (c.Username user).startTimeout = c.startTimeout ∧ (c.Username user).stopTimeout = c.stopTimeout) ∧
    ((c.Password pw).password = pw ∧ (c.Password pw).version = c.version ∧
      (c.Password pw).port = c.port ∧ (c.Password pw).database = c.database ∧
      (c.Password pw).username = c.username ∧ (c.Password pw).runtimePath = c.runtimePath ∧
      (c.Password pw).startTimeout = c.startTimeout ∧ (c.Password pw).stopTimeout = c.stopTimeout) ∧
    ((c.RuntimePath path).runtimePath = path ∧ (c.RuntimePath path).version = c.version ∧
      (c.RuntimePath path).port = c.port ∧ (c.RuntimePath path).database = c.database ∧
      (c.RuntimePath path).username = c.username ∧ (c.RuntimePath path).password = c.password ∧
      (c.RuntimePath path).startTimeout = c.startTimeout ∧ (c.RuntimePath path).stopTimeout = c.stopTimeout) ∧
    ((c.StartTimeout st).startTimeout = st ∧ (c.StartTimeout st).version = c.version ∧
      (c.StartTimeout st).port = c.port ∧ (c.StartTimeout st).database = c.database ∧
      (c.StartTimeout st).username = c.username ∧ (c.StartTimeout st).password = c.password ∧
      (c.StartTimeout st).runtimePath = c.runtimePath ∧ (c.StartTimeout st).stopTimeout = c.stopTimeout) ∧
    ((c.StopTimeout sp).stopTimeout = sp ∧ (c.StopTimeout sp).version = c.version ∧
      (c.StopTimeout sp).port = c.port ∧ (c.StopTimeout sp).database = c.database ∧
      (c.StopTimeout sp).username = c.username ∧ (c.StopTimeout sp).password = c.password ∧
      (c.StopTimeout sp).runtimePath = c.runtimePath ∧ (c.StopTimeout sp).startTimeout = c.startTimeout) := by
  exact ⟨⟨rfl, rfl, rfl, rfl, rfl, rfl, rfl, rfl⟩, ⟨rfl, rfl, rfl, rfl, rfl, rfl, rfl, rfl⟩,
    ⟨rfl, rfl, rfl, rfl, rfl, rfl, rfl, rfl⟩, ⟨rfl, rfl, rfl, rfl, rfl, rfl, rfl, rfl⟩,
    ⟨rfl, rfl, rfl, rfl, rfl, rfl, rfl, rfl⟩, ⟨rfl, rfl, rfl, rfl, rfl, rfl, rfl, rfl⟩,
    ⟨rfl, rfl, rfl, rfl, rfl, rfl, rfl, rfl⟩, ⟨rfl, rfl, rfl, rfl, rfl, rfl, rfl, rfl⟩⟩

/-- C8: the cache locator is deterministic — any two non-panicking
invocations with identical (home, os, arch, version) yield the same path,
whatever the stat outcomes — and the path has the spec shape
cache-root / embedded-postgres-binaries-os-arch-version.txz, with the
cache root a dot-directory under home, or a relative dot-directory when
home is unresolved. -/
theorem defaultCacheLocator_ok_path (userHome : Option String)
    (os arch version : String) (st : StatResult) (r : String × Bool)
    (h : defaultCacheLocator userHome os arch version st = .ok r) :
    r.1 = cacheLocation userHome os arch version := by
  cases st with
  | ok isDir =>
      simp only [defaultCacheLocator] at h
      cases h
      rfl
  | err e =>
      simp only [defaultCacheLocator] at h
      split at h
      · simp at h
      · cases h
        rfl

theorem defaultCacheLocator_deterministic_path (userHome : Option String)
    (os arch version : String) (st₁ st₂ : StatResult) (r₁ r₂ : String × Bool)
    (h₁ : defaultCacheLocator userHome os arch version st₁ = .ok r₁)
    (h₂ : defaultCacheLocator userHome os arch version st₂ = .ok r₂) :
    r₁.1 = r₂.1 ∧ r₁.1 = cacheLocationSpecShape userHome os arch version := by
  have p₁ := defaultCacheLocator_ok_path userHome os arch version st₁ r₁ h₁
  have p₂ := defaultCacheLocator_ok_path userHome os arch version st₂ r₂ h₂
  exact ⟨p₁.trans p₂.symm, p₁.trans (cacheLocation_eq_specShape userHome os arch version)⟩

theorem defaultCacheLocator_deterministic_path_witness :
    defaultCacheLocator (some "/home/u") "linux" "amd64" "12.1.0" (.err .enoent) =
        .ok ("/home/u/.embedded-postgres-go/embedded-postgres-binaries-linux-amd64-12.1.0.txz", false) ∧
      ("/home/u/.embedded-postgres-go/embedded-postgres-binaries-linux-amd64-12.1.0.txz", false).1 =
          ("/home/u/.embedded-postgres-go/embedded-postgres-binaries-linux-amd64-12.1.0.txz", true).1 ∧
        ("/home/u/.embedded-postgres-go/embedded-postgres-binaries-linux-amd64-12.1.0.txz", false).1 =
          cacheLocationSpecShape (some "/home/u") "linux" "amd64" "12.1.0" :=
  ⟨by rfl,
   defaultCacheLocator_deterministic_path (some "/home/u") "linux" "amd64" "12.1.0"
     (.err .enoent) (.ok false)
     ("/home/u/.embedded-postgres-go/embedded-postgres-binaries-linux-amd64-12.1.0.txz", false)
     ("/home/u/.embedded-postgres-go/embedded-postgres-binaries-linux-amd64-12.1.0.txz", true)
     (by rfl) (by rfl)⟩

/-- C10: for every error `os.Stat` can actually return, the locator returns
the computed path with the materialized flag false, and the nil `FileInfo`
is never dereferenced (no panic): `os.IsExist` is false on every stat
failure, so the short-circuited `info.IsDir()` access is unreachable. -/
theorem defaultCacheLocator_stat_error_no_nil_deref (userHome : Option String)
    (os arch version : String) (e : Errno) (he : e ∈ statFailureErrnos) :
    defaultCacheLocator userHome os arch version (.err e) =
      .ok (cacheLocation userHome os arch version, false) := by
  have hex : osIsExist e = false := by
    cases e <;> simp_all [statFailureErrnos, osIsExist]
  simp [defaultCacheLocator, hex]

theorem defaultCacheLocator_stat_error_no_nil_deref_witness :
    Errno.enoent ∈ statFailureErrnos ∧
      defaultCacheLocator (some "/home/u") "linux" "amd64" "12.1.0" (.err .enoent) =
        .ok (cacheLocation (some "/home/u") "linux" "amd64" "12.1.0", false) :=
  ⟨by decide,
   defaultCacheLocator_stat_error_no_nil_deref (some "/home/u") "linux" "amd64" "12.1.0"
     .enoent (by decide)⟩

example :
    defaultCacheLocator none "darwin" "arm64v8" "11.6.0" (.ok true) =
      .ok (".embedded-postgres-go/embedded-postgres-binaries-darwin-arm64v8-11.6.0.txz", false) := by
  rfl

/-! ## Remote fetch strategy (embedded_postgres.go lines 359-437) -/

/-- Go error values the modelled functions can return (the source returns
`error` values built with `fmt.Errorf` or from collaborators; only their
identity matters here). -/
inductive GoError
  | portInUse
  | connCloseFailed
  | httpGetFailed
  | zipOpenFailed
  | zipReadFailed
  | entryReadFailed
  | archiveWriteFailed
  | cleanupDirFailed
  | extractFailed
  | writePasswordFileFailed
  | initDbFailed
  | notYetStarted
  deriving Repr, DecidableEq

/-- Outcome of running a piece of Go code from the point of view of its
caller: it returns a value, it blocks forever (the caller hangs), or an
unrecovered panic terminates the whole program. -/
inductive GoRunOutcome (α : Type)
  | returns (a : α)
  | hangs
  | crashes
  deriving Repr, DecidableEq

/-- One entry of the downloaded zip container, as seen by the loop at lines
393-413: whether its `Header` type-asserts to `zip.FileHeader`, the header
name, whether `ioutil.ReadAll` on it succeeds, and its bytes. -/
structure ZipEntry where
  isFileHeader : Bool
  name : String
  readOk : Bool
  content : List Nat
  deriving Repr, DecidableEq

/-- Environment for one invocation of the remote fetch closure: whether
`http.Get` succeeds, whether `zip.Open` on the body succeeds, the entries
the zip reader yields (a malformed container that fails mid-iteration is
modelled by `zipOpenOk = false`), and whether `createArchiveFile` (MkdirAll,
Create, WriteFile) succeeds. -/
structure FetchEnv where
  httpGetOk : Bool
  zipOpenOk : Bool
  entries : List ZipEntry
  writeOk : Bool
  deriving Repr, DecidableEq

/-- Structural character-list prefix test (auxiliary for the suffix test). -/
def listStartsWith : List Char → List Char → Bool
  | [], _ => true
  | _ :: _, [] => false
  | a :: as, b :: bs => a == b && listStartsWith as bs

/-- `strings.HasSuffix` from the Go standard library: whether `suf` is a
suffix of `s` (defined structurally so it evaluates by kernel reduction;
the source only applies it to ASCII suffixes, where byte-wise and
character-wise comparison agree). -/
def goHasSuffix (s suf : String) : Bool :=
  listStartsWith suf.data.reverse s.data.reverse

/-- Whether the loop body at lines 402-404 keeps an entry: the header is a
`zip.FileHeader` and its name ends in `.txz`; every other entry hits
`continue`. -/
def matchesArchiveSuffix (e : ZipEntry) : Bool :=
  e.isFileHeader && goHasSuffix e.name ".txz"

/-- The entry loop (lines 393-413), accumulating the writes made to the
cache location: for each kept entry, its bytes are read and written to
`cacheLocation` via `createArchiveFile`; on a read or write failure the
closure returns that error. -/
def fetchEntriesLoop (cacheLoc : String) (writeOk : Bool) :
    List ZipEntry → List (String × List Nat) →
      GoRunOutcome (Option GoError) × List (String × List Nat)
  | [], writes => (.returns none, writes)
  | e :: rest, writes =>
      if !matchesArchiveSuffix e then fetchEntriesLoop cacheLoc writeOk rest writes
      else if !e.readOk then (.returns (some .entryReadFailed), writes)
      else if !writeOk then (.returns (some .archiveWriteFailed), writes)
      else fetchEntriesLoop cacheLoc writeOk rest (writes ++ [(cacheLoc, e.content)])

/-- The closure returned by `defaultRemoteFetchStrategy` (lines 361-417),
returning the caller-visible outcome and the list of writes made to the
cache path.  When `http.Get` fails the deferred `resp.Body.Close()` at line
373 dereferences the nil `resp`, so the program crashes rather than
returning the error. -/
def defaultRemoteFetchStrategy (cacheLoc : String) (env : FetchEnv) :
    GoRunOutcome (Option GoError) × List (String × List Nat) :=
  if !env.httpGetOk then (.crashes, [])
  else if !env.zipOpenOk then (.returns (some .zipOpenFailed), [])
  else fetchEntriesLoop cacheLoc env.writeOk env.entries []

/-- C6: when the downloaded zip container is fetched and opened successfully
but contains zero entries matching the `.txz` suffix, the remote fetch
strategy returns success (a nil error) and writes nothing to the cache
path. -/
theorem remoteFetch_no_matching_entries_silent_noop (cacheLoc : String) (env : FetchEnv)
    (hGet : env.httpGetOk = true) (hZip : env.zipOpenOk = true)
    (hNone : ∀ e ∈ env.entries, matchesArchiveSuffix e = false) :
    defaultRemoteFetchStrategy cacheLoc env = (.returns none, []) := by
  have loop : ∀ (es : List ZipEntry), (∀ e ∈ es, matchesArchiveSuffix e = false) →
      ∀ writes, fetchEntriesLoop cacheLoc env.writeOk es writes = (.returns none, writes) := by
    intro es
    induction es with
    | nil => intro _ writes; rfl
    | cons e rest ih =>
        intro h writes
        have he : matchesArchiveSuffix e = false := h e (List.mem_cons_self e rest)
        have hrest : ∀ x ∈ rest, matchesArchiveSuffix x = false := fun x hx =>
          h x (List.mem_cons_of_mem e hx)
        simp only [fetchEntriesLoop, he, Bool.not_false, if_pos]
        exact ih hrest writes
  simp only [defaultRemoteFetchStrategy, hGet, hZip, Bool.not_true, Bool.false_eq_true,
    if_neg, ite_false]
  exact loop env.entries hNone []

theorem remoteFetch_no_matching_entries_silent_noop_witness :
    (let env : FetchEnv :=
      { httpGetOk := true, zipOpenOk := true,
        entries := [{ isFileHeader := true, name := "sub/archive.zip", readOk := true, content := [1, 2] },
                    { isFileHeader := false, name := "inner.txz", readOk := true, content := [3] }],
        writeOk := true }
     env.httpGetOk = true ∧ env.zipOpenOk = true ∧
       (∀ e ∈ env.entries, matchesArchiveSuffix e = false) ∧
       defaultRemoteFetchStrategy "/c/a.txz" env = (.returns none, [])) :=
  ⟨rfl, rfl, by decide,
   remoteFetch_no_matching_entries_silent_noop "/c/a.txz" _ rfl rfl (by decide)⟩

/-! ## Lifecycle coordinator (embedded_postgres.go lines 170-324)

The two `chan bool` fields have capacity 1.  A Go channel field is nil until
assigned (`unallocated`); `make(chan bool, 1)` yields an open channel with an
empty buffer; `close` moves it to `closed` (every `close` in the source runs
when the buffer is empty in the interleavings modelled here).  Sending on a
closed channel panics; sending on a nil channel or on a full buffer with no
active receiver blocks forever. -/

/-- State of one of the capacity-1 `chan bool` fields. -/
inductive ChanState
  | unallocated
  | opened (buffer : List Bool)
  | closed
  deriving Repr, DecidableEq

/-- State of the supervised `postgres` child process. -/
inductive ChildState
  | notSpawned
  | running
  | exited
  deriving Repr, DecidableEq

/-- The `EmbeddedPostgres` struct (lines 170-176).  `cacheLocator` and
`remoteFetchStrategy` are function fields whose outcomes are supplied per
call through `StartEnv`; the two channel fields are modelled explicitly.
`startupAllocs` / `shutdownAllocs` instrument the model: each is incremented
exactly when a `make(chan bool, 1)` is assigned to the corresponding field,
so they count the allocations performed so far. -/
structure EmbeddedPostgres where
  config : Config
  shutdownHook : ChanState
  startupHook : ChanState
  child : ChildState
  startupAllocs : Nat
  shutdownAllocs : Nat
  deriving Repr, DecidableEq

/-- `newDatabaseWithConfig` (lines 186-196): allocates `shutdownHook` with
`make(chan bool, 1)`; `startupHook` is left as its nil zero value. -/
def newDatabaseWithConfig (config : Config) : EmbeddedPostgres :=
  { config := config
    shutdownHook := .opened []
    startupHook := .unallocated
    child := .notSpawned
    startupAllocs := 0
    shutdownAllocs := 1 }

/-- `NewDatabase` (lines 178-180). -/
def NewDatabase : EmbeddedPostgres := newDatabaseWithConfig DefaultConfig

/-- Outcome of the readiness race inside `startPostgres` (lines 253-277):
either the health-check goroutine signals `complete` before the
`startTimeout` context expires, or the context expires first. -/
inductive ReadyOutcome
  | ready
  | timedOut
  deriving Repr, DecidableEq

/-- External outcomes consumed by one `Start` invocation, in source order:
the port probe (line 199), `conn.Close` (line 203), the cache lookup
(line 207), the fetch (line 209), `os.RemoveAll` (line 214), the tar-xz
extraction (line 217), the password-file write (line 222), the `initdb`
subprocess (line 233), the `postgres` spawn (line 248), and the readiness
race. -/
structure StartEnv where
  portFree : Bool
  connCloseOk : Bool
  cacheExists : Bool
  fetchOk : Bool
  removeAllOk : Bool
  unarchiveOk : Bool
  writeFileOk : Bool
  initDbOk : Bool
  spawnOk : Bool
  readiness : ReadyOutcome
  deriving Repr, DecidableEq

/-- Externally observable steps of `Start`, for stating ordering and
call-count properties. -/
inductive Event
  | listenPort
  | cacheLookup
  | fetch
  | removeAll
  | unarchive
  | writePwfile
  | runInitDb
  | spawnSupervisor
  deriving Repr, DecidableEq

/-- `startPostgres` (lines 243-277) up to and including the close of
`startupHook` — the point at which the `for range ep.startupHook` loop in
`Start` unblocks.  On spawn failure the goroutine closes `startupHook` and
panics, killing the program (line 248-251).  On readiness it closes
`startupHook` (line 271-273).  On timeout it first sends `true` on
`shutdownHook` (line 275) — panicking if that channel is closed, blocking
forever if it is nil or its buffer is full with no active receiver — and
then closes `startupHook` (line 276). -/
def startPostgres (spawnOk : Bool) (readiness : ReadyOutcome) (ep : EmbeddedPostgres) :
    GoRunOutcome Unit × EmbeddedPostgres :=
  if !spawnOk then
    (.crashes, { ep with startupHook := .closed })
  else
    let ep1 := { ep with child := .running }
    match readiness with
    | .ready => (.returns (), { ep1 with startupHook := .closed })
    | .timedOut =>
        match ep1.shutdownHook with
        | .opened [] =>
            (.returns (), { ep1 with shutdownHook := .opened [true], startupHook := .closed })
        | .opened (_ :: _) => (.hangs, ep1)
        | .closed => (.crashes, ep1)
        | .unallocated => (.hangs, ep1)

/-- Result of one `Start` invocation: the caller-visible outcome (`Start`
returns an `error`, modelled as `Option GoError` with `none` for nil), the
trace of externally observable steps, and the coordinator state at the
moment `Start` returns (or is last defined before a hang or crash). -/
structure StartResult where
  outcome : GoRunOutcome (Option GoError)
  trace : List Event
  state : EmbeddedPostgres
  deriving Repr, DecidableEq

/-- The tail of `Start` from `os.RemoveAll` onwards (lines 213-240), shared
by the cache-hit and fetch paths; `tr` is the trace accumulated so far.
After `initdb` succeeds, `Start` assigns `ep.startupHook = make(chan bool,
1)` (line 236), spawns `startPostgres` (line 237), and drains `startupHook`
until it is closed (lines 238-239), then returns nil — whatever the
readiness outcome was. -/
def startFromCleanup (tr : List Event) (env : StartEnv) (ep : EmbeddedPostgres) : StartResult :=
  if !env.removeAllOk then
    { outcome := .returns (some .cleanupDirFailed), trace := tr ++ [.removeAll], state := ep }
  else if !env.unarchiveOk then
    { outcome := .returns (some .extractFailed), trace := tr ++ [.removeAll, .unarchive],
      state := ep }
  else if !env.writeFileOk then
    { outcome := .returns (some .writePasswordFileFailed),
      trace := tr ++ [.removeAll, .unarchive, .writePwfile], state := ep }
  else if !env.initDbOk then
    { outcome := .returns (some .initDbFailed),
      trace := tr ++ [.removeAll, .unarchive, .writePwfile, .runInitDb], state := ep }
  else
    let ep1 := { ep with startupHook := .opened [], startupAllocs := ep.startupAllocs + 1 }
    let r := startPostgres env.spawnOk env.readiness ep1
    { outcome :=
        match r.1 with
        | .returns _ => .returns none
        | .hangs => .hangs
        | .crashes => .crashes
      trace := tr ++ [.removeAll, .unarchive, .writePwfile, .runInitDb, .spawnSupervisor]
      state := r.2 }

/-- `Start` (lines 198-241). -/
def Start (env : StartEnv) (ep : EmbeddedPostgres) : StartResult :=
  if !env.portFree then
    { outcome := .returns (some .portInUse), trace := [.listenPort], state := ep }
  else if !env.connCloseOk then
    { outcome := .returns (some .connCloseFailed), trace := [.listenPort], state := ep }
  else if env.cacheExists then
    startFromCleanup [.listenPort, .cacheLookup] env ep
  else if !env.fetchOk then
    { outcome := .returns (some .httpGetFailed), trace := [.listenPort, .cacheLookup, .fetch],
      state := ep }
  else
    startFromCleanup [.listenPort, .cacheLookup, .fetch] env ep

/-- `SIGQUIT` followed by `Wait` on the child (lines 281-286): a running
child exits; signalling an already reaped or never spawned process only
yields an error that the source logs and ignores. -/
def signalAndWait (c : ChildState) : ChildState :=
  match c with
  | .running => .exited
  | c => c

/-- The `for shutdown := range ep.shutdownHook` loop at lines 279-289, run
by the supervisor goroutine after the startup signal: when a `true` is
pending in the buffer (sent either by the timed-out readiness race at line
275 or by `Stop` at line 320) the supervisor receives it, sends SIGQUIT to
the child, waits for it, and closes `shutdownHook`; the next loop iteration
then sees the closed channel and exits.  With an empty open buffer the loop
blocks awaiting a stop request, and with a closed channel it exits at
once — in both cases the state is unchanged. -/
def runShutdownLoop (ep : EmbeddedPostgres) : EmbeddedPostgres :=
  match ep.shutdownHook with
  | .opened (true :: _) => { ep with child := signalAndWait ep.child, shutdownHook := .closed }
  | _ => ep

/-- `Stop` (lines 316-324).  `ep.startupHook == nil` is the not-yet-started
guard.  Otherwise `Stop` sends `true` on `shutdownHook`: if that channel is
already closed the send panics; if it is open and empty, the supervisor
goroutine blocked in its range loop receives the value, terminates the
child, and closes the channel, after which the `for range ep.shutdownHook`
loop in `Stop` sees the closed channel and `Stop` returns nil (the modelled
interleaving hands the sent value to the supervisor, which was already
parked as a receiver).  With a full buffer the pending value is consumed by
the supervisor, which closes the channel, and the blocked resend then
panics. -/
def Stop (ep : EmbeddedPostgres) : GoRunOutcome (Option GoError) × EmbeddedPostgres :=
  if ep.startupHook = .unallocated then
    (.returns (some .notYetStarted), ep)
  else
    match ep.shutdownHook with
    | .closed => (.crashes, ep)
    | .unallocated => (.hangs, ep)
    | .opened (_ :: _) => (.crashes, runShutdownLoop ep)
    | .opened [] =>
        (.returns none, { ep with child := signalAndWait ep.child, shutdownHook := .closed })

/-- An environment in which the pre-flight probe, the filesystem steps, the
`initdb` run and the `postgres` spawn all succeed; cache-hit flag, fetch
outcome and readiness outcome are parameters. -/
def envAllOk (cacheExists fetchOk : Bool) (readiness : ReadyOutcome) : StartEnv :=
  { portFree := true, connCloseOk := true, cacheExists := cacheExists, fetchOk := fetchOk,
    removeAllOk := true, unarchiveOk := true, writeFileOk := true, initDbOk := true,
    spawnOk := true, readiness := readiness }

/-- Scanning the trace left to right: false when an extraction occurs before
any fetch, true once a fetch is seen first (and true when neither occurs). -/
def fetchBeforeExtract : List Event → Bool
  | [] => true
  | .unarchive :: _ => false
  | .fetch :: _ => true
  | _ :: tr => fetchBeforeExtract tr

/-- C1: when every step up to the supervisor spawn succeeds and the
readiness poller's deadline elapses without the server ever becoming ready
(`readiness = timedOut`), `Start` still returns a nil error, and at the
moment it returns the half-started child process is still running. -/
theorem start_timeout_returns_success_child_running (config : Config) (ce fOk : Bool)
    (hfe : ce = true ∨ fOk = true) :
    (Start (envAllOk ce fOk .timedOut) (newDatabaseWithConfig config)).outcome =
        .returns none ∧
      (Start (envAllOk ce fOk .timedOut) (newDatabaseWithConfig config)).state.child =
        .running := by
  rcases hfe with h | h
  · subst h; cases fOk <;> exact ⟨rfl, rfl⟩
  · subst h; cases ce <;> exact ⟨rfl, rfl⟩

theorem start_timeout_returns_success_child_running_witness :
    (Start (envAllOk true true .timedOut) (newDatabaseWithConfig DefaultConfig)).outcome =
        .returns none ∧
      (Start (envAllOk true true .timedOut) (newDatabaseWithConfig DefaultConfig)).state.child =
        .running :=
  start_timeout_returns_success_child_running DefaultConfig true true (Or.inl rfl)

/-- C4: if the start deadline elapses before readiness is signalled, the
supervisor itself sends a stop request on the shutdown channel (its buffer
holds `true` when `Start` returns); the supervisor's shutdown loop then
sends SIGQUIT to the child, waits for it, and closes the shutdown channel,
so no child remains running after a timed-out `Start` even though `Start`
reported success. -/
theorem start_timeout_supervisor_self_stop (config : Config) (ce fOk : Bool)
    (hfe : ce = true ∨ fOk = true) :
    (Start (envAllOk ce fOk .timedOut) (newDatabaseWithConfig config)).outcome =
        .returns none ∧
      (Start (envAllOk ce fOk .timedOut) (newDatabaseWithConfig config)).state.shutdownHook =
        .opened [true] ∧
      (runShutdownLoop
          (Start (envAllOk ce fOk .timedOut) (newDatabaseWithConfig config)).state).child =
        .exited ∧
      (runShutdownLoop
          (Start (envAllOk ce fOk .timedOut) (newDatabaseWithConfig config)).state).shutdownHook =
        .closed := by
  rcases hfe with h | h
  · subst h; cases fOk <;> exact ⟨rfl, rfl, rfl, rfl⟩
  · subst h; cases ce <;> exact ⟨rfl, rfl, rfl, rfl⟩

theorem start_timeout_supervisor_self_stop_witness :
    (Start (envAllOk true true .timedOut) (newDatabaseWithConfig DefaultConfig)).outcome =
        .returns none ∧
      (Start (envAllOk true true .timedOut) (newDatabaseWithConfig DefaultConfig)).state.shutdownHook =
        .opened [true] ∧
      (runShutdownLoop
          (Start (envAllOk true true .timedOut) (newDatabaseWithConfig DefaultConfig)).state).child =
        .exited ∧
      (runShutdownLoop
          (Start (envAllOk true true .timedOut) (newDatabaseWithConfig DefaultConfig)).state).shutdownHook =
        .closed :=
  start_timeout_supervisor_self_stop DefaultConfig true true (Or.inl rfl)

/-- C5: for every `Start` invocation that passes the pre-flight port probe,
a cache miss makes `Start` invoke the remote fetch strategy exactly once,
and before any extraction; a cache hit means the fetch strategy is never
invoked. -/
theorem start_fetch_iff_cache_miss (env : StartEnv) (ep : EmbeddedPostgres)
    (hpf : env.portFree = true) (hcc : env.connCloseOk = true) :
    (env.cacheExists = false →
        (Start env ep).trace.count .fetch = 1 ∧
          fetchBeforeExtract (Start env ep).trace = true) ∧
      (env.cacheExists = true → (Start env ep).trace.count .fetch = 0) := by
  obtain ⟨pf, cc, ce, f, ra, ua, wf, idb, sp, rd⟩ := env
  simp only at hpf hcc
  subst hpf hcc
  constructor
  · intro hce
    simp only at hce
    subst hce
    cases f <;> cases ra <;> cases ua <;> cases wf <;> cases idb <;> cases sp <;> cases rd <;>
      exact ⟨rfl, rfl⟩
  · intro hce
    simp only at hce
    subst hce
    cases f <;> cases ra <;> cases ua <;> cases wf <;> cases idb <;> cases sp <;> cases rd <;>
      rfl

theorem start_fetch_iff_cache_miss_witness :
    ((Start (envAllOk false true .ready) NewDatabase).trace.count .fetch = 1 ∧
        fetchBeforeExtract (Start (envAllOk false true .ready) NewDatabase).trace = true) ∧
      (Start (envAllOk true true .ready) NewDatabase).trace.count .fetch = 0 :=
  ⟨(start_fetch_iff_cache_miss (envAllOk false true .ready) NewDatabase rfl rfl).1 rfl,
   (start_fetch_iff_cache_miss (envAllOk true true .ready) NewDatabase rfl rfl).2 rfl⟩

/-- C7: calling `Stop` on a coordinator whose startup channel was never
allocated (as after construction, before any successful `Start`) returns
the not-started error and performs no process operations: the state —
shutdown channel and child included — is returned unchanged. -/
theorem stop_before_start_not_started (ep : EmbeddedPostgres)
    (h : ep.startupHook = .unallocated) :
    Stop ep = (.returns (some .notYetStarted), ep) := by
  simp [Stop, h]

theorem stop_before_start_not_started_witness :
    Stop (newDatabaseWithConfig DefaultConfig) =
      (.returns (some .notYetStarted), newDatabaseWithConfig DefaultConfig) :=
  stop_before_start_not_started (newDatabaseWithConfig DefaultConfig) rfl

/-- C2 counterexample: in a concrete all-successful `Start` on a freshly
constructed coordinator, the startup channel is reallocated (its allocation
count rises from 0 to 1) but the shutdown channel is not (its allocation
count stays at the single construction-time allocation), so it is false
that both one-shot channels are freshly reallocated for the run. -/
theorem start_reallocates_both_channels_false :
    ¬ ((Start (envAllOk true true .ready) NewDatabase).state.startupAllocs =
          NewDatabase.startupAllocs + 1 ∧
        (Start (envAllOk true true .ready) NewDatabase).state.shutdownAllocs =
          NewDatabase.shutdownAllocs + 1) := by
  intro h
  exact absurd h.2 (by decide)

/-- C2 amended: each `Start` freshly reallocates only the startup channel
before the supervisor is spawned; the shutdown channel is allocated exactly
once at construction and never reallocated, so after a full Start/Stop
cycle a second `Start` runs against the already-closed shutdown channel. -/
theorem start_reallocates_only_startup_channel (config : Config) (ce fOk : Bool)
    (rd : ReadyOutcome) (hfe : ce = true ∨ fOk = true) :
    (Start (envAllOk ce fOk rd) (newDatabaseWithConfig config)).state.startupAllocs =
        (newDatabaseWithConfig config).startupAllocs + 1 ∧
      (Start (envAllOk ce fOk rd) (newDatabaseWithConfig config)).state.shutdownAllocs =
        (newDatabaseWithConfig config).shutdownAllocs ∧
      (Start (envAllOk ce fOk .ready)
          (Stop (Start (envAllOk ce fOk .ready) (newDatabaseWithConfig config)).state).2).state.shutdownHook =
        .closed ∧
      (Start (envAllOk ce fOk .ready)
          (Stop (Start (envAllOk ce fOk .ready) (newDatabaseWithConfig config)).state).2).state.shutdownAllocs =
        (newDatabaseWithConfig config).shutdownAllocs := by
  rcases hfe with h | h
  · subst h; cases fOk <;> cases rd <;> exact ⟨rfl, rfl, rfl, rfl⟩
  · subst h; cases ce <;> cases rd <;> exact ⟨rfl, rfl, rfl, rfl⟩

theorem start_reallocates_only_startup_channel_witness :
    (Start (envAllOk true true .ready) (newDatabaseWithConfig DefaultConfig)).state.startupAllocs =
        (newDatabaseWithConfig DefaultConfig).startupAllocs + 1 ∧
      (Start (envAllOk true true .ready) (newDatabaseWithConfig DefaultConfig)).state.shutdownAllocs =
        (newDatabaseWithConfig DefaultConfig).shutdownAllocs ∧
      (Start (envAllOk true true .ready)
          (Stop (Start (envAllOk true true .ready) (newDatabaseWithConfig DefaultConfig)).state).2).state.shutdownHook =
        .closed ∧
      (Start (envAllOk true true .ready)
          (Stop (Start (envAllOk true true .ready) (newDatabaseWithConfig DefaultConfig)).state).2).state.shutdownAllocs =
        (newDatabaseWithConfig DefaultConfig).shutdownAllocs :=
  start_reallocates_only_startup_channel DefaultConfig true true .ready (Or.inl rfl)

/-- C3 counterexample: in a concrete run — construction, an all-successful
`Start`, a successful `Stop` — a second `Stop` does not return the
not-started error. -/
theorem second_stop_not_started_false :
    ¬ ((Stop (Stop (Start (envAllOk true true .ready) NewDatabase).state).2).1 =
        .returns (some .notYetStarted)) := by
  decide

/-- C3 amended: after a successful `Stop`, the instance state is not reset —
the startup channel remains allocated (closed, not nil) — so a second `Stop`
passes the not-started guard and panics by sending on the already-closed
shutdown channel (the program crashes rather than returning
`NotStartedError`). -/
theorem second_stop_after_stop_panics (config : Config) (ce fOk : Bool)
    (hfe : ce = true ∨ fOk = true) :
    (Stop (Start (envAllOk ce fOk .ready) (newDatabaseWithConfig config)).state).1 =
        .returns none ∧
      (Stop (Start (envAllOk ce fOk .ready) (newDatabaseWithConfig config)).state).2.startupHook =
        .closed ∧
      (Stop (Start (envAllOk ce fOk .ready) (newDatabaseWithConfig config)).state).2.shutdownHook =
        .closed ∧
      (Stop (Stop (Start (envAllOk ce fOk .ready) (newDatabaseWithConfig config)).state).2).1 =
        .crashes := by
  rcases hfe with h | h
  · subst h; cases fOk <;> exact ⟨rfl, rfl, rfl, rfl⟩
  · subst h; cases ce <;> exact ⟨rfl, rfl, rfl, rfl⟩

theorem second_stop_after_stop_panics_witness :
    (Stop (Start (envAllOk true true .ready) (newDatabaseWithConfig DefaultConfig)).state).1 =
        .returns none ∧
      (Stop (Start (envAllOk true true .ready) (newDatabaseWithConfig DefaultConfig)).state).2.startupHook =
        .closed ∧
      (Stop (Start (envAllOk true true .ready) (newDatabaseWithConfig DefaultConfig)).state).2.shutdownHook =
        .closed ∧
      (Stop (Stop (Start (envAllOk true true .ready) (newDatabaseWithConfig DefaultConfig)).state).2).1 =
        .crashes :=
  second_stop_after_stop_panics DefaultConfig true true (Or.inl rfl)

end EmbeddedPg
